import Mathlib

/-!
Verification of the delivery-route comparison prototype (src/app.py) against
its natural-language specification.  The Python source is shallowly embedded:
pure arithmetic becomes functions over `ℝ` (Python floats are modelled as
exact reals, since every claim is about the symbolic formulas), strings stay
`String`, fallible external calls become explicit sum types describing every
outcome the code distinguishes.
-/

/-- A coordinate is a (latitude, longitude) pair of degree values. -/
abbrev Coordinate := ℝ × ℝ

/-- Embeds the `Place` dataclass (src/app.py:62-71): raw input string,
resolved latitude/longitude, human-readable label. -/
structure Place where
  raw : String
  lat : ℝ
  lon : ℝ
  label : String

/-- Embeds the `coords` property (src/app.py:69-71): the `(lat, lon)` pair. -/
def Place.coords (p : Place) : Coordinate := (p.lat, p.lon)

/-- Embeds `approx_miles` (src/app.py:343-345):
`(((p.lat - q.lat) ** 2 + (p.lon - q.lon) ** 2) ** 0.5) * 69.0`.
Python's `** 0.5` is the real power with exponent `0.5`. -/
noncomputable def approx_miles (p q : Place) : ℝ :=
  (((p.lat - q.lat) ^ 2 + (p.lon - q.lon) ^ 2) ^ (0.5 : ℝ)) * 69.0

/-- Path distance of an ordered sequence of places: the sum of consecutive
point distances, in visiting order (no reordering).  This is the general
form of the sum `approx_miles(seq[0], seq[1]) + approx_miles(seq[1], seq[2])`
at src/app.py:346. -/
noncomputable def path_distance : List Place → ℝ
  | p :: q :: rest => approx_miles p q + path_distance (q :: rest)
  | _ => 0

/-- Embeds the route dict produced by `ors_directions` / `straight_fallback`
(src/app.py:126-212, 342-353).  The Python value is a dict whose keys
`distance_m`, `duration_s`, `geometry` may be absent (error dicts carry only
`error` and `source`); absence is modelled with `Option`. -/
structure RouteDict where
  error : Option String
  distance_m : Option ℝ
  duration_s : Option ℝ
  geometry : Option (List Coordinate)
  source : String

/-- The error dict `\x7b"error": e, "source": "fallback"\x7d` returned on every
degradation branch of `ors_directions`: the three schema keys are absent. -/
def errDict (e : String) : RouteDict :=
  { error := some e, distance_m := none, duration_s := none,
    geometry := none, source := "fallback" }

/-- A successful ORS dict: distance, duration, geometry present,
`source = "ors"` (src/app.py:172-177, 202-207). -/
def orsDict (d t : ℝ) (geo : List Coordinate) : RouteDict :=
  { error := none, distance_m := some d, duration_s := some t,
    geometry := some geo, source := "ors" }

/-- GeoJSON `[lon, lat]` pairs are swapped to `[lat, lon]`
(src/app.py:171, 187). -/
def swapPairs (cs : List (ℝ × ℝ)) : List (ℝ × ℝ) :=
  cs.map (fun c => (c.2, c.1))

/-- One GeoJSON feature as `ors_directions` reads it (src/app.py:164-170):
`geometry.coordinates` (missing geometry collapses to the `[]` default of
`geom.get("coordinates") or []`) and the optional `summary.distance` /
`summary.duration` (missing summary collapses to absent keys, read with
default `0.0`). -/
structure Feature where
  coordinates : List (ℝ × ℝ)
  distance : Option ℝ
  duration : Option ℝ

/-- Geometry field of a classic-schema route (src/app.py:183-198):
a GeoJSON-style dict of `[lon, lat]` pairs, an encoded polyline string
(`decoded` is the external `polyline` library's result in `(lat, lon)`
order, `none` when decoding raised), or any other value (e.g. the missing
key, Python `None`), whose type name feeds the error message. -/
inductive ClassicGeom where
  | dict (coordinates : List (ℝ × ℝ))
  | encoded (decoded : Option (List (ℝ × ℝ)))
  | other (typeName : String)

/-- One classic-schema route (src/app.py:180-201): optional summary values
and a geometry. -/
structure ClassicRoute where
  distance : Option ℝ
  duration : Option ℝ
  geometry : ClassicGeom

/-- The JSON payload shapes `ors_directions` distinguishes
(src/app.py:154-209): a body that fails JSON parsing, a GeoJSON
FeatureCollection, a classic `routes` schema, or any other shape. -/
inductive Payload where
  | nonJson (text : String)
  | geojson (features : List Feature)
  | classic (routes : List ClassicRoute)
  | otherShape (text : String)

/-- An HTTP response: status code and payload. -/
structure HttpResponse where
  status : Nat
  body : Payload

/-- Outcome of the outbound `requests.post` call (src/app.py:150): either an
exception (network error, timeout, ...) caught by the outer handler at
src/app.py:211-212, or a response. -/
inductive ServiceResult where
  | exc (message : String)
  | resp (r : HttpResponse)

/-- Embeds `ors_directions` (src/app.py:126-212).  The network interaction is
abstracted into the `svc : ServiceResult` argument; everything after it is
the function's own control flow.  The coordinate list only feeds the request
body, so the result does not depend on it.  Empty `api_key` is Python-falsy
(`if not api_key`). -/
def ors_directions (api_key : String) (coords_latlon : List Coordinate)
    (svc : ServiceResult) : RouteDict :=
  if api_key = "" then errDict "Missing API key"
  else
    match svc with
    | .exc e => errDict e
    | .resp resp =>
      if resp.status ≠ 200 then errDict ("ORS HTTP " ++ toString resp.status)
      else
        match resp.body with
        | .nonJson t => errDict ("Non-JSON response: " ++ t)
        | .geojson feats =>
          match feats with
          | [] => errDict "GeoJSON has no features"
          | f :: _ => orsDict (f.distance.getD 0.0) (f.duration.getD 0.0)
              (swapPairs f.coordinates)
        | .classic routes =>
          match routes with
          | [] =>
            -- `(data.get("routes") or [\x7b\x7d])[0]` yields the empty dict, whose
            -- missing geometry is Python None: "Unknown geometry type".
            errDict "Unknown geometry type: NoneType"
          | r0 :: _ =>
            match r0.geometry with
            | .dict cs => orsDict (r0.distance.getD 0.0) (r0.duration.getD 0.0)
                (swapPairs cs)
            | .encoded (some pts) => orsDict (r0.distance.getD 0.0)
                (r0.duration.getD 0.0) pts
            | .encoded none => errDict "Encoded geometry but could not decode"
            | .other ty => errDict ("Unknown geometry type: " ++ ty)
        | .otherShape t => errDict ("Unknown ORS response shape: " ++ t)

/-- The failure modes of the directions call: missing credential, network
exception, non-success HTTP status, non-JSON body, empty feature list,
empty classic route list, undecodable or unknown geometry, unknown response
shape.  These are exactly the branches of `ors_directions` that return an
error dict. -/
def ors_failed (api_key : String) (svc : ServiceResult) : Bool :=
  if api_key = "" then true
  else
    match svc with
    | .exc _ => true
    | .resp resp =>
      if resp.status ≠ 200 then true
      else
        match resp.body with
        | .nonJson _ => true
        | .geojson feats => feats.isEmpty
        | .classic routes =>
          match routes with
          | [] => true
          | r0 :: _ =>
            match r0.geometry with
            | .dict _ => false
            | .encoded o => o.isNone
            | .other _ => true
        | .otherShape _ => true

/-- Embeds `straight_fallback` (src/app.py:342-353) for the three-stop
sequences the app always builds: the straight-line estimator's RouteResult.
`d` is the summed consecutive planar distance, `t_min` the buffered ETA in
minutes; the dict stores metres and seconds. -/
noncomputable def straight_fallback (s0 s1 s2 : Place) (buffer_pct : ℝ) :
    RouteDict :=
  let d := approx_miles s0 s1 + approx_miles s1 s2
  let t_min := d / 22.0 * 60.0 * (1 + buffer_pct / 100.0)
  { error := none
    distance_m := some (d * 1609.34)
    duration_s := some (t_min * 60.0)
    geometry := some [s0.coords, s1.coords, s2.coords]
    source := "fallback" }

/-- Embeds `ensure_schema` (src/app.py:355-361): a falsy route or one missing
any of the three schema keys is replaced by the straight-line fallback. -/
noncomputable def ensure_schema (route : Option RouteDict)
    (s0 s1 s2 : Place) (buffer_pct : ℝ) : RouteDict :=
  match route with
  | none => straight_fallback s0 s1 s2 buffer_pct
  | some r =>
    if r.distance_m.isSome && r.duration_s.isSome && r.geometry.isSome then r
    else straight_fallback s0 s1 s2 buffer_pct

/-- The pipeline the app runs per sequence: the directions adapter
(src/app.py:328-329) followed by schema enforcement (src/app.py:363-364),
for the three-stop sequence `s0, s1, s2`. -/
noncomputable def route_pipeline (api_key : String) (svc : ServiceResult)
    (s0 s1 s2 : Place) (buffer_pct : ℝ) : RouteDict :=
  ensure_schema (some (ors_directions api_key [s0.coords, s1.coords, s2.coords] svc))
    s0 s1 s2 buffer_pct

/-- Every failure mode makes `ors_directions` return an error dict. -/
lemma ors_failed_errDict (api_key : String) (cs : List Coordinate)
    (svc : ServiceResult) (h : ors_failed api_key svc = true) :
    ∃ e, ors_directions api_key cs svc = errDict e := by
  by_cases hk : api_key = ""
  · exact ⟨"Missing API key", by simp [ors_directions, hk]⟩
  · cases svc with
    | exc m => exact ⟨m, by simp [ors_directions, hk]⟩
    | resp resp =>
      by_cases hs : resp.status = 200
      · cases hb : resp.body with
        | nonJson t =>
          exact ⟨"Non-JSON response: " ++ t, by simp [ors_directions, hk, hs, hb]⟩
        | geojson feats =>
          cases feats with
          | nil => exact ⟨"GeoJSON has no features", by simp [ors_directions, hk, hs, hb]⟩
          | cons f fs => simp [ors_failed, hk, hs, hb] at h
        | classic routes =>
          cases routes with
          | nil =>
            exact ⟨"Unknown geometry type: NoneType", by simp [ors_directions, hk, hs, hb]⟩
          | cons r0 rs =>
            cases hg : r0.geometry with
            | dict cs' => simp [ors_failed, hk, hs, hb, hg] at h
            | encoded o =>
              cases o with
              | none =>
                exact ⟨"Encoded geometry but could not decode",
                  by simp [ors_directions, hk, hs, hb, hg]⟩
              | some pts => simp [ors_failed, hk, hs, hb, hg] at h
            | other ty =>
              exact ⟨"Unknown geometry type: " ++ ty,
                by simp [ors_directions, hk, hs, hb, hg]⟩
        | otherShape t =>
          exact ⟨"Unknown ORS response shape: " ++ t,
            by simp [ors_directions, hk, hs, hb]⟩
      · exact ⟨"ORS HTTP " ++ toString resp.status,
          by simp [ors_directions, hk, hs]⟩

/-- Schema enforcement replaces an error dict by the straight-line fallback. -/
lemma ensure_schema_errDict (e : String) (s0 s1 s2 : Place) (b : ℝ) :
    ensure_schema (some (errDict e)) s0 s1 s2 b = straight_fallback s0 s1 s2 b := by
  simp [ensure_schema, errDict]

/-- On every failure mode, the pipeline yields the straight-line fallback. -/
lemma route_pipeline_failed (api_key : String) (svc : ServiceResult)
    (s0 s1 s2 : Place) (b : ℝ) (h : ors_failed api_key svc = true) :
    route_pipeline api_key svc s0 s1 s2 b = straight_fallback s0 s1 s2 b := by
  obtain ⟨e, he⟩ := ors_failed_errDict api_key [s0.coords, s1.coords, s2.coords] svc h
  rw [route_pipeline, he, ensure_schema_errDict]

/-- Embeds `miles` (src/app.py:383-384): metres to miles. -/
noncomputable def miles (meters : ℝ) : ℝ := meters / 1609.34

/-- Embeds `minutes` (src/app.py:386-387): seconds to minutes. -/
noncomputable def minutes (seconds : ℝ) : ℝ := seconds / 60.0

/-- The buffered ETA the summary displays (src/app.py:389-390):
`minutes(r.get("duration_s", 0.0)) * (1 + buffer_pct/100.0)`. -/
noncomputable def display_eta (r : RouteDict) (buffer_pct : ℝ) : ℝ :=
  minutes (r.duration_s.getD 0.0) * (1 + buffer_pct / 100.0)

/-- The two sequence labels of the comparison (src/app.py:401). -/
inductive SeqLabel where
  | AB
  | BA
deriving DecidableEq

/-- The coordinate sequence of route 1 (src/app.py:328):
`[p_start.coords, p_a.coords, p_b.coords]`. -/
def seq1_coords (p_start p_a p_b : Place) : List Coordinate :=
  [p_start.coords, p_a.coords, p_b.coords]

/-- The coordinate sequence of route 2 (src/app.py:329):
`[p_start.coords, p_b.coords, p_a.coords]`. -/
def seq2_coords (p_start p_a p_b : Place) : List Coordinate :=
  [p_start.coords, p_b.coords, p_a.coords]

/-- Output of one evaluation: the two schema-enforced route dicts, the
displayed distances and buffered ETAs, and the reported shorter sequence. -/
structure EvalResult where
  r1 : RouteDict
  r2 : RouteDict
  total1_d : ℝ
  total1_t : ℝ
  total2_d : ℝ
  total2_t : ℝ
  shorter : SeqLabel

/-- Embeds the post-geocoding evaluation of one submission with
`force_ors` unchecked (src/app.py:327-329, 342-364, 383-401): fetch both
sequences through the adapter, enforce the schema, compute displayed totals,
pick the sequence with the lower buffered ETA (`<=` favours A→B). -/
noncomputable def evaluate (p_start p_a p_b : Place) (api_key : String)
    (svc1 svc2 : ServiceResult) (buffer_pct : ℝ) : EvalResult :=
  let r1 := route_pipeline api_key svc1 p_start p_a p_b buffer_pct
  let r2 := route_pipeline api_key svc2 p_start p_b p_a buffer_pct
  let total1_d := miles (r1.distance_m.getD 0.0)
  let total1_t := display_eta r1 buffer_pct
  let total2_d := miles (r2.distance_m.getD 0.0)
  let total2_t := display_eta r2 buffer_pct
  { r1 := r1, r2 := r2
    total1_d := total1_d, total1_t := total1_t
    total2_d := total2_d, total2_t := total2_t
    shorter := if total1_t ≤ total2_t then SeqLabel.AB else SeqLabel.BA }

/-- Concrete places used by the closed witness statements. -/
noncomputable def placeStart : Place := ⟨"start", 44.98, -93.27, "Start"⟩

noncomputable def placeA : Place := ⟨"a", 44.975, -93.26, "A"⟩

noncomputable def placeB : Place := ⟨"b", 44.981, -93.269, "B"⟩

/-- C1: for every coordinate sequence (three-stop, as the app builds them),
credential, buffer and service failure mode — non-success HTTP status,
malformed or non-JSON payload, empty feature list, network exception,
missing credential — the directions adapter followed by schema enforcement
returns exactly the straight-line estimator's RouteResult, whose source tag
`"fallback"` differs from the routed tag `"ors"`. -/
theorem c1_pipeline_degrades_to_estimator (api_key : String)
    (svc : ServiceResult) (s0 s1 s2 : Place) (b : ℝ)
    (h : ors_failed api_key svc = true) :
    route_pipeline api_key svc s0 s1 s2 b = straight_fallback s0 s1 s2 b ∧
    (route_pipeline api_key svc s0 s1 s2 b).source = "fallback" ∧
    (route_pipeline api_key svc s0 s1 s2 b).source ≠ "ors" := by
  have hp := route_pipeline_failed api_key svc s0 s1 s2 b h
  refine ⟨hp, ?_, ?_⟩
  · rw [hp]
    simp [straight_fallback]
  · rw [hp]
    intro hcontra
    simp [straight_fallback] at hcontra

/-- Witness for C1 at a concrete HTTP 500 outcome. -/
theorem c1_pipeline_degrades_to_estimator_witness :
    ors_failed "some-key" (.resp ⟨500, .nonJson "Internal Server Error"⟩) = true ∧
    (route_pipeline "some-key" (.resp ⟨500, .nonJson "Internal Server Error"⟩)
        placeStart placeA placeB 20
      = straight_fallback placeStart placeA placeB 20 ∧
     (route_pipeline "some-key" (.resp ⟨500, .nonJson "Internal Server Error"⟩)
        placeStart placeA placeB 20).source = "fallback" ∧
     (route_pipeline "some-key" (.resp ⟨500, .nonJson "Internal Server Error"⟩)
        placeStart placeA placeB 20).source ≠ "ors") :=
  ⟨by decide,
   c1_pipeline_degrades_to_estimator "some-key"
     (.resp ⟨500, .nonJson "Internal Server Error"⟩)
     placeStart placeA placeB 20 (by decide)⟩

/-- C5: the fast planar point-distance approximation equals
`sqrt((p.lat - q.lat)² + (p.lon - q.lon)²) × 69.0` miles. -/
theorem c5_approx_miles_formula (p q : Place) :
    approx_miles p q
      = Real.sqrt ((p.lat - q.lat) ^ 2 + (p.lon - q.lon) ^ 2) * 69.0 := by
  rw [approx_miles, Real.sqrt_eq_rpow]
  norm_num

/-- C6: the point distance is symmetric, and zero on identical points. -/
theorem c6_approx_miles_symm_and_self (p q : Place) :
    approx_miles p q = approx_miles q p ∧ approx_miles p p = 0 := by
  constructor
  · have hbase : (p.lat - q.lat) ^ 2 + (p.lon - q.lon) ^ 2
        = (q.lat - p.lat) ^ 2 + (q.lon - p.lon) ^ 2 := by ring
    rw [approx_miles, approx_miles, hbase]
  · have h0 : (p.lat - p.lat) ^ 2 + (p.lon - p.lon) ^ 2 = (0 : ℝ) := by ring
    rw [approx_miles, h0, Real.zero_rpow (by norm_num), zero_mul]

/-- C4: for every three-stop sequence and non-negative buffer percentage,
the estimator's ETA in minutes equals
`(path_distance / 22) × 60 × (1 + buffer/100)`, where the path distance is
the sum of consecutive point distances in visiting order. -/
theorem c4_fallback_eta_formula (s0 s1 s2 : Place) (b : ℝ) (hb : 0 ≤ b) :
    minutes ((straight_fallback s0 s1 s2 b).duration_s.getD 0.0)
      = path_distance [s0, s1, s2] / 22.0 * 60.0 * (1 + b / 100.0) := by
  simp only [straight_fallback, minutes, path_distance, Option.getD_some]
  ring

/-- Witness for C4 at buffer 20 % and concrete places. -/
theorem c4_fallback_eta_formula_witness :
    (0 : ℝ) ≤ 20 ∧
    minutes ((straight_fallback placeStart placeA placeB 20).duration_s.getD 0.0)
      = path_distance [placeStart, placeA, placeB] / 22.0 * 60.0 * (1 + 20 / 100.0) :=
  ⟨by norm_num, c4_fallback_eta_formula placeStart placeA placeB 20 (by norm_num)⟩

/-- C3 counterexample: the engine builds three-point visiting sequences, not
the five-point (start, A-pickup, A-dropoff, B-pickup, B-dropoff) sequences
the claim states — at concrete inputs the first sequence is the three-element
list `[start, A, B]`, whose length is not 5. -/
theorem c3_counterexample_three_point_sequence :
    seq1_coords placeStart placeA placeB
      = [placeStart.coords, placeA.coords, placeB.coords] ∧
    (seq1_coords placeStart placeA placeB).length ≠ 5 := by
  constructor
  · rfl
  · simp [seq1_coords]

/-- C3 (amended): in two-sequence comparison mode, for every shared start
point and two single-stop addresses A and B, the engine builds exactly the
two three-point visiting sequences (start, A, B) and (start, B, A), obtains
a RouteResult for each through the directions adapter with schema-enforcement
fallback, applies the ETA buffer to each duration, and reports the sequence
with the lower buffered ETA (A→B when the two are equal). -/
theorem c3_two_sequence_comparison (p_start p_a p_b : Place) (api_key : String)
    (svc1 svc2 : ServiceResult) (b : ℝ) :
    seq1_coords p_start p_a p_b = [p_start.coords, p_a.coords, p_b.coords] ∧
    seq2_coords p_start p_a p_b = [p_start.coords, p_b.coords, p_a.coords] ∧
    (evaluate p_start p_a p_b api_key svc1 svc2 b).r1
      = ensure_schema (some (ors_directions api_key (seq1_coords p_start p_a p_b) svc1))
          p_start p_a p_b b ∧
    (evaluate p_start p_a p_b api_key svc1 svc2 b).r2
      = ensure_schema (some (ors_directions api_key (seq2_coords p_start p_a p_b) svc2))
          p_start p_b p_a b ∧
    (evaluate p_start p_a p_b api_key svc1 svc2 b).total1_t
      = display_eta (evaluate p_start p_a p_b api_key svc1 svc2 b).r1 b ∧
    (evaluate p_start p_a p_b api_key svc1 svc2 b).total2_t
      = display_eta (evaluate p_start p_a p_b api_key svc1 svc2 b).r2 b ∧
    ((evaluate p_start p_a p_b api_key svc1 svc2 b).shorter = SeqLabel.AB ↔
      (evaluate p_start p_a p_b api_key svc1 svc2 b).total1_t
        ≤ (evaluate p_start p_a p_b api_key svc1 svc2 b).total2_t) := by
  refine ⟨rfl, rfl, rfl, rfl, rfl, rfl, ?_⟩
  by_cases h : (evaluate p_start p_a p_b api_key svc1 svc2 b).total1_t
      ≤ (evaluate p_start p_a p_b api_key svc1 svc2 b).total2_t
  · simp only [evaluate] at h ⊢
    simp [h]
  · simp only [evaluate] at h ⊢
    simp [h]

/-- C9: when a route degrades to the straight-line fallback, the displayed
buffered ETA applies the buffer twice — the fallback duration already carries
the factor `(1 + b/100)` and the display multiplies by it again, giving
`(d / 22) × 60 × (1 + b/100)²` minutes — while a routed result's displayed
ETA carries the factor exactly once. -/
theorem c9_fallback_buffer_applied_twice (s0 s1 s2 : Place) (b : ℝ)
    (r : RouteDict) (d : ℝ) (hsrc : r.source = "ors")
    (hdur : r.duration_s = some d) :
    display_eta (straight_fallback s0 s1 s2 b) b
      = path_distance [s0, s1, s2] / 22.0 * 60.0 * (1 + b / 100.0) ^ 2 ∧
    display_eta r b = d / 60.0 * (1 + b / 100.0) := by
  constructor
  · simp only [display_eta, straight_fallback, minutes, path_distance,
      Option.getD_some]
    ring
  · simp only [display_eta, minutes, hdur, Option.getD_some]

/-- Witness for C9: a concrete routed dict with duration 600 s and the
concrete fallback at buffer 20 %. -/
theorem c9_fallback_buffer_applied_twice_witness :
    (orsDict 100 600 []).source = "ors" ∧
    (orsDict 100 600 []).duration_s = some 600 ∧
    (display_eta (straight_fallback placeStart placeA placeB 20) 20
      = path_distance [placeStart, placeA, placeB] / 22.0 * 60.0
          * (1 + 20 / 100.0) ^ 2 ∧
     display_eta (orsDict 100 600 []) 20 = 600 / 60.0 * (1 + 20 / 100.0)) :=
  ⟨rfl, rfl,
   c9_fallback_buffer_applied_twice placeStart placeA placeB 20
     (orsDict 100 600 []) 600 rfl rfl⟩

/-- C10: when the buffered ETAs of the two sequences are exactly equal, the
A→B sequence is reported as the shorter one (the comparison uses `≤`). -/
theorem c10_tie_breaks_to_ab (p_start p_a p_b : Place) (api_key : String)
    (svc1 svc2 : ServiceResult) (b : ℝ)
    (h : (evaluate p_start p_a p_b api_key svc1 svc2 b).total1_t
        = (evaluate p_start p_a p_b api_key svc1 svc2 b).total2_t) :
    (evaluate p_start p_a p_b api_key svc1 svc2 b).shorter = SeqLabel.AB := by
  simp only [evaluate] at h ⊢
  simp [le_of_eq h]

/-- Witness for C10: with A and B the same address and identical service
outcomes, both buffered ETAs coincide and A→B is reported. -/
theorem c10_tie_breaks_to_ab_witness :
    (evaluate placeStart placeA placeA "some-key" (.exc "timeout") (.exc "timeout") 20).total1_t
      = (evaluate placeStart placeA placeA "some-key" (.exc "timeout") (.exc "timeout") 20).total2_t ∧
    (evaluate placeStart placeA placeA "some-key" (.exc "timeout") (.exc "timeout") 20).shorter
      = SeqLabel.AB :=
  ⟨rfl,
   c10_tie_breaks_to_ab placeStart placeA placeA "some-key"
     (.exc "timeout") (.exc "timeout") 20 rfl⟩

/-- Python truthiness of an optional string value: `if v:` keeps only a
present, non-empty string (src/app.py:19-20, 25-27, 304). -/
def truthyOpt : Option String → Option String
  | some v => if v = "" then none else some v
  | none => none

/-- Python's `sub in s` substring test. -/
def strContains (s sub : String) : Bool := (s.splitOn sub).length != 1

/-- Python's `s.split(sep, 1)`: the part before the first separator and the
rest (`s` itself when the separator is absent). -/
def splitFirst (s sep : String) : String × String :=
  match s.splitOn sep with
  | [] => (s, "")
  | [x] => (x, "")
  | x :: rest => (x, String.intercalate sep rest)

/-- One line of the simple `key=value` scan of the properties file
(src/app.py:36-43): skip blank lines, `#`/`;` comments and `[` section
headers; on `ORS_API_KEY=value`, yield the stripped value. -/
def propLine (line : String) : Option String :=
  let l := line.trim
  if l = "" then none
  else if l.startsWith "#" || l.startsWith ";" then none
  else if strContains l "=" && !(l.startsWith "[") then
    let kv := splitFirst l "="
    if kv.1.trim = "ORS_API_KEY" then some kv.2.trim else none
  else none

/-- Embeds `load_api_key` (src/app.py:16-56).  The external sources are
arguments: the secret-store entry, the environment variable, the properties
file content (`none` when the file does not exist; the two candidate paths
name the same file, so one content suffices), and the external
`configparser` INI lookup's result for that file (`none` when the file is
absent, has no such option, or parsing raised).  Secrets and environment are
taken only when truthy; the simple line scan returns the stripped value; the
INI fallback is stripped too. -/
def load_api_key (secrets env fileContent ini : Option String) : Option String :=
  match truthyOpt secrets with
  | some v => some v
  | none =>
    match truthyOpt env with
    | some v => some v
    | none =>
      match fileContent with
      | none => none
      | some raw =>
        match (raw.splitOn "\n").findSome? propLine with
        | some v => some v
        | none => ini.map String.trim

/-- The message of the hard error shown when no key resolves
(src/app.py:305-306, abbreviated). -/
def noKeyMessage : String := "No ORS API key found."

/-- The two continuations after credential resolution. -/
inductive AppGate where
  | halted (message : String)
  | proceed (api_key : String)

/-- Embeds src/app.py:303-307: `API_KEY = load_api_key()` followed by
`if not API_KEY: st.error(...); st.stop()` — a falsy key halts the whole
script with a hard error before any evaluation; otherwise the app proceeds
with the key. -/
def api_key_gate (k : Option String) : AppGate :=
  match truthyOpt k with
  | some v => .proceed v
  | none => .halted noKeyMessage

/-- C2 counterexample: with no secret-store entry, no environment variable
and no properties file, `load_api_key` resolves nothing and the app halts
with a hard error (`st.error` + `st.stop`) instead of completing the
evaluation in forced-fallback mode. -/
theorem c2_counterexample_no_key_halts :
    load_api_key none none none none = none ∧
    api_key_gate (load_api_key none none none none)
      = AppGate.halted noKeyMessage := ⟨rfl, rfl⟩

/-- C2 (amended): inside the directions adapter a missing or empty credential
is not an exception — the call returns a fallback-tagged result and the
pipeline substitutes the straight-line estimator's RouteResult — but at the
top level, whenever no truthy API key resolves, the app halts with a hard
error before any evaluation rather than running in forced-fallback mode. -/
theorem c2_missing_credential (svc : ServiceResult) (s0 s1 s2 : Place)
    (b : ℝ) (k : Option String) (hk : truthyOpt k = none) :
    api_key_gate k = AppGate.halted noKeyMessage ∧
    route_pipeline "" svc s0 s1 s2 b = straight_fallback s0 s1 s2 b ∧
    (ors_directions "" [s0.coords, s1.coords, s2.coords] svc).source
      = "fallback" := by
  refine ⟨?_, ?_, ?_⟩
  · simp [api_key_gate, hk]
  · exact route_pipeline_failed "" svc s0 s1 s2 b (by simp [ors_failed])
  · simp [ors_directions, errDict]

/-- Witness for C2 (amended) with no resolvable key and a concrete outcome. -/
theorem c2_missing_credential_witness :
    truthyOpt (load_api_key none none none none) = none ∧
    (api_key_gate (load_api_key none none none none)
       = AppGate.halted noKeyMessage ∧
     route_pipeline "" (.exc "timeout") placeStart placeA placeB 20
       = straight_fallback placeStart placeA placeB 20 ∧
     (ors_directions ""
        [placeStart.coords, placeA.coords, placeB.coords]
        (.exc "timeout")).source = "fallback") :=
  ⟨rfl,
   c2_missing_credential (.exc "timeout") placeStart placeA placeB 20
     (load_api_key none none none none) rfl⟩

/-- Strip leading and trailing whitespace from a character list
(Python `str.strip()`). -/
def stripChars (cs : List Char) : List Char :=
  ((cs.dropWhile Char.isWhitespace).reverse.dropWhile Char.isWhitespace).reverse

/-- Python `str.strip()` on a string. -/
def pyStrip (s : String) : String := String.mk (stripChars s.data)

/-- Split at the first occurrence of `sep`: `some (before, after)` when the
separator occurs, `none` otherwise.  `some` corresponds to Python's
`sep in s` succeeding followed by `s.split(sep, 1)`. -/
def splitFirstChar (sep : Char) : List Char → Option (List Char × List Char)
  | [] => none
  | c :: rest =>
    if c = sep then some ([], rest)
    else
      match splitFirstChar sep rest with
      | some (l, r) => some (c :: l, r)
      | none => none

/-- A geocoding provider's successful result: resolved latitude, longitude
and the formatted address it reports (geopy's `res.latitude`,
`res.longitude`, `res.address`). -/
structure ProviderHit where
  latitude : ℝ
  longitude : ℝ
  address : String

/-- The three external geocoding providers tried in order
(src/app.py:92-117); each is a query-string lookup, `none` covering both
"no result" and a raised exception (the code swallows either and moves on). -/
structure Providers where
  nominatim : String → Option ProviderHit
  photon : String → Option ProviderHit
  arcgis : String → Option ProviderHit

/-- Embeds the direct-coordinate shortcut of `geocode_multi`
(src/app.py:82-90): when the stripped input contains a comma, split at the
first comma, strip both parts, parse both with Python `float()` (modelled by
the `pyfloat` argument; a parse exception is `none`), and accept the pair
when latitude ∈ [-90, 90] and longitude ∈ [-180, 180].  Returns the parsed
in-range pair; `geocode_multi` builds the `Place` from it (line 88). -/
def direct_coords (pyfloat : String → Option ℚ) (txt : String) :
    Option (ℚ × ℚ) :=
  match splitFirstChar ',' txt.data with
  | none => none
  | some (ls, rs) =>
    match pyfloat (pyStrip (String.mk ls)), pyfloat (pyStrip (String.mk rs)) with
    | some latv, some lonv =>
      if -90 ≤ latv ∧ latv ≤ 90 ∧ -180 ≤ lonv ∧ lonv ≤ 180 then
        some (latv, lonv)
      else none
    | _, _ => none

/-- Embeds the Nominatim query construction (src/app.py:95):
`f"\x7btxt\x7d, \x7bcountry_hint\x7d" if country_hint and country_hint not in txt
else txt`. -/
def nominatim_query (txt hint : String) : String :=
  if hint ≠ "" ∧ strContains txt hint = false then txt ++ ", " ++ hint
  else txt

/-- Embeds the provider cascade of `geocode_multi` (src/app.py:92-119):
Nominatim on the hinted query, then Photon and ArcGIS on the stripped text,
each failure (no result or exception) falling through to the next. -/
def provider_chain (prov : Providers) (address txt q : String) :
    Option Place :=
  match prov.nominatim q with
  | some res =>
    some ⟨address, res.latitude, res.longitude, res.address ++ " [Nominatim]"⟩
  | none =>
    match prov.photon txt with
    | some res =>
      some ⟨address, res.latitude, res.longitude, res.address ++ " [Photon]"⟩
    | none =>
      match prov.arcgis txt with
      | some res =>
        some ⟨address, res.latitude, res.longitude, res.address ++ " [ArcGIS]"⟩
      | none => none

/-- Embeds `geocode_multi` (src/app.py:77-119).  `pyfloat` models Python's
`float()` on a stripped token, `fmt` the `f"\x7blat:.6f\x7d, \x7blon:.6f\x7d"` label
formatting, `prov` the three external providers. -/
def geocode_multi (pyfloat : String → Option ℚ) (fmt : ℚ → ℚ → String)
    (prov : Providers) (address country_hint : String) : Option Place :=
  match direct_coords pyfloat (pyStrip address) with
  | some lv => some ⟨address, (lv.1 : ℝ), (lv.2 : ℝ), fmt lv.1 lv.2⟩
  | none =>
    provider_chain prov address (pyStrip address)
      (nominatim_query (pyStrip address) country_hint)

/-- C7: an input whose stripped text parses as an in-range "lat, lon" pair
is answered directly — the returned Place carries exactly the parsed
coordinates and the answer is independent of the providers — and every
other input is delegated to the external provider cascade. -/
theorem c7_geocode_direct_shortcut (pyfloat : String → Option ℚ)
    (fmt : ℚ → ℚ → String) (address hint : String) :
    (∀ latv lonv,
      direct_coords pyfloat (pyStrip address) = some (latv, lonv) →
        (-90 ≤ latv ∧ latv ≤ 90 ∧ -180 ≤ lonv ∧ lonv ≤ 180) ∧
        ∀ prov prov' : Providers,
          geocode_multi pyfloat fmt prov address hint
            = some ⟨address, (latv : ℝ), (lonv : ℝ), fmt latv lonv⟩ ∧
          geocode_multi pyfloat fmt prov address hint
            = geocode_multi pyfloat fmt prov' address hint) ∧
    (direct_coords pyfloat (pyStrip address) = none →
      ∀ prov : Providers,
        geocode_multi pyfloat fmt prov address hint
          = provider_chain prov address (pyStrip address)
              (nominatim_query (pyStrip address) hint)) := by
  constructor
  · intro latv lonv h
    constructor
    · unfold direct_coords at h
      split at h
      · exact absurd h (by simp)
      · split at h
        · split at h
          · rename_i hrange
            simp only [Option.some.injEq, Prod.mk.injEq] at h
            obtain ⟨h1, h2⟩ := h
            subst h1
            subst h2
            exact hrange
          · exact absurd h (by simp)
        · exact absurd h (by simp)
    · intro prov prov'
      constructor
      · simp only [geocode_multi, h]
      · simp only [geocode_multi, h]
  · intro h prov
    simp only [geocode_multi, h]

/-- Digit-string value, most significant first. -/
def digitsVal (cs : List Char) : ℕ :=
  cs.foldl (fun acc c => acc * 10 + (c.toNat - 48)) 0

/-- A concrete decimal-literal instance of Python `float()` parsing, used to
instantiate the abstract `pyfloat` in the closed witness: optional sign,
digits, optional fractional part.  (Python's grammar also admits exponents,
underscores, inf and nan; the geocode theorem is parametric in the parser,
so only this fragment is needed concretely.) -/
def parseDec (s : String) : Option ℚ :=
  let signed : Int × List Char :=
    match s.data with
    | '-' :: t => (-1, t)
    | '+' :: t => (1, t)
    | t => (1, t)
  let intPart := signed.2.takeWhile Char.isDigit
  let rest := signed.2.dropWhile Char.isDigit
  match rest with
  | [] =>
    if intPart.isEmpty then none
    else some (mkRat (signed.1 * (digitsVal intPart : Int)) 1)
  | '.' :: frac =>
    if frac.all Char.isDigit && !(intPart.isEmpty && frac.isEmpty) then
      some (mkRat (signed.1 * ((digitsVal intPart : Int) * (10 : Int) ^ frac.length
        + (digitsVal frac : Int))) ((10 : ℕ) ^ frac.length))
    else none
  | _ => none

/-- Providers that always fail, for the closed witness. -/
def noProviders : Providers := ⟨fun _ => none, fun _ => none, fun _ => none⟩

/-- A concrete label formatter for the closed witness. -/
def fmtSimple (la lo : ℚ) : String := toString la ++ ", " ++ toString lo

/-- Witness for C7: the literal "44.98, -93.27" takes the direct-coordinate
shortcut (with the exact parsed pair, provider-independently), while
"Chipotle Minneapolis" is delegated to the provider cascade. -/
theorem c7_geocode_direct_shortcut_witness :
    direct_coords parseDec (pyStrip "44.98, -93.27")
      = some (mkRat 4498 100, mkRat (-9327) 100) ∧
    geocode_multi parseDec fmtSimple noProviders "44.98, -93.27" "US"
      = some ⟨"44.98, -93.27", ((mkRat 4498 100 : ℚ) : ℝ),
          ((mkRat (-9327) 100 : ℚ) : ℝ),
          fmtSimple (mkRat 4498 100) (mkRat (-9327) 100)⟩ ∧
    direct_coords parseDec (pyStrip "Chipotle Minneapolis") = none ∧
    geocode_multi parseDec fmtSimple noProviders "Chipotle Minneapolis" "US"
      = provider_chain noProviders "Chipotle Minneapolis"
          (pyStrip "Chipotle Minneapolis")
          (nominatim_query (pyStrip "Chipotle Minneapolis") "US") :=
  ⟨by decide,
   (((c7_geocode_direct_shortcut parseDec fmtSimple "44.98, -93.27" "US").1
       (mkRat 4498 100) (mkRat (-9327) 100) (by decide)).2
       noProviders noProviders).1,
   by decide,
   (c7_geocode_direct_shortcut parseDec fmtSimple "Chipotle Minneapolis" "US").2
     (by decide) noProviders⟩

/-- The decision outcomes of the threshold-based comparison (spec §3). -/
inductive Decision where
  | Combine
  | MaybeCombine
  | Reject
  | Insufficient
deriving DecidableEq

/-- An order: a pickup coordinate and an optional dropoff coordinate
(spec §3); either may be missing in raw input. -/
structure Order where
  pickup : Option Coordinate
  dropoff : Option Coordinate

/-- Modelled from the spec: the §4.1 planar point distance on raw
coordinates, `sqrt(Δlat² + Δlon²) × 69.0`, used by the threshold engine,
which is not present in src/app.py. -/
noncomputable def planar_miles (p q : Coordinate) : ℝ :=
  Real.sqrt ((p.1 - q.1) ^ 2 + (p.2 - q.2) ^ 2) * 69.0

/-- Modelled from the spec: the threshold-based Route Comparison Engine of
§4.3 is not present in src/app.py (this variant only reports the
two-sequence ETA comparison), so the decision algorithm is taken from the
spec's steps 1-6: Insufficient without A pickup+dropoff and B pickup;
`pickup_ok` / `dropoff_ok` by `≤` against the thresholds; a missing B
dropoff is permissively ok; reasons listed pickup-first, using the spec's
scenario strings. -/
noncomputable def route_decision (a b : Order)
    (pickup_threshold dropoff_threshold : ℝ) : Decision × List String :=
  match a.pickup, a.dropoff, b.pickup with
  | some ap, some ad, some bp =>
    if planar_miles ap bp ≤ pickup_threshold then
      match b.dropoff with
      | some bd =>
        if planar_miles ad bd ≤ dropoff_threshold then
          (.Combine, ["Pickup proximity OK", "Dropoff detour OK"])
        else
          (.MaybeCombine, ["Pickup proximity OK", "Dropoff detour TOO FAR"])
      | none =>
        (.Combine,
         ["Pickup proximity OK", "No B dropoff provided (pickup-only check)"])
    else (.Reject, ["Pickup proximity TOO FAR"])
  | _, _, _ =>
    (.Insufficient, ["need Order A pickup+dropoff and Order B pickup"])

/-- C8: whenever the inputs are sufficient and the pickup distance exceeds
the pickup proximity threshold, the Decision is Reject — for every dropoff
distance and whether or not Order B has a dropoff. -/
theorem c8_far_pickup_rejects (a b : Order)
    (pickup_threshold dropoff_threshold : ℝ) (ap ad bp : Coordinate)
    (hap : a.pickup = some ap) (had : a.dropoff = some ad)
    (hbp : b.pickup = some bp)
    (hfar : pickup_threshold < planar_miles ap bp) :
    (route_decision a b pickup_threshold dropoff_threshold).1
      = Decision.Reject := by
  simp only [route_decision, hap, had, hbp]
  rw [if_neg (not_le.mpr hfar)]

/-- Order A of the C8 witness: pickup and dropoff at the origin. -/
noncomputable def wOrderA : Order := ⟨some (0, 0), some (0, 0)⟩

/-- Order B of the C8 witness: pickup one degree of latitude away, no
dropoff. -/
noncomputable def wOrderB : Order := ⟨some (1, 0), none⟩

/-- Witness for C8: a pickup distance of 69 miles against a 1-mile
threshold yields Reject. -/
theorem c8_far_pickup_rejects_witness :
    wOrderA.pickup = some ((0 : ℝ), (0 : ℝ)) ∧
    wOrderA.dropoff = some ((0 : ℝ), (0 : ℝ)) ∧
    wOrderB.pickup = some ((1 : ℝ), (0 : ℝ)) ∧
    (1 : ℝ) < planar_miles ((0 : ℝ), (0 : ℝ)) ((1 : ℝ), (0 : ℝ)) ∧
    (route_decision wOrderA wOrderB 1 3).1 = Decision.Reject := by
  have hdist : planar_miles ((0 : ℝ), (0 : ℝ)) ((1 : ℝ), (0 : ℝ)) = 69 := by
    simp only [planar_miles]
    norm_num
  have hfar : (1 : ℝ) < planar_miles ((0 : ℝ), (0 : ℝ)) ((1 : ℝ), (0 : ℝ)) := by
    rw [hdist]; norm_num
  exact ⟨rfl, rfl, rfl, hfar,
    c8_far_pickup_rejects wOrderA wOrderB 1 3 (0, 0) (0, 0) (1, 0)
      rfl rfl rfl hfar⟩
